import Mathlib

/-
  Shallow embedding of the FinVerify verification engine
  (src/verifier/property_checker.py, src/verifier/hoare_logic.py,
  src/verifier/advanced_properties.py).

  Each checking operation builds a set of linear integer / boolean
  constraints (the step semantics conjoined with the negation of the
  target invariant) and submits it to an SMT solver.  We embed each
  constraint set as a predicate over a model structure whose fields are
  the Z3 variables created by the code, embed satisfiability as an
  existential over models, and embed the solver call relationally:
  a run of the decision procedure that decides the query answers `sat`
  exactly when the constraint set is satisfiable, and the checking
  operation maps that answer through its post-solve branch.  The
  `unknown` answer (timeout) is covered separately by the branch
  functions themselves, which transcribe each operation's
  if/elif/else on the solver result.
-/

namespace FinVerify

/-- The tri-state result enum `VerificationResult` from
`src/verifier/property_checker.py` (the advanced checker's enum is
identical up to string values). -/
inductive VerificationResult
  | VERIFIED
  | VIOLATED
  | UNKNOWN
deriving DecidableEq, Repr

/-- The raw answer of one `solver.check()` call: `sat`, `unsat`, or
anything else (timeout / unknown). -/
inductive Z3Status
  | sat
  | unsat
  | unknown
deriving DecidableEq, Repr

/-- Soundness of a solver answer for a query whose satisfiability is
the proposition `P`: `sat` means satisfiable, `unsat` means
unsatisfiable, `unknown` carries no information. -/
def statusSound (P : Prop) : Z3Status → Prop
  | .sat => P
  | .unsat => ¬ P
  | .unknown => True

/-- Outcome of running a checking operation whose query has
satisfiability `P` and whose post-solve branch is `branch`, on a solver
run that decides the query (answers `sat` or `unsat` correctly; these
queries are linear integer arithmetic, which Z3 decides). -/
def checkOutcome (P : Prop) (branch : Z3Status → VerificationResult)
    (r : VerificationResult) : Prop :=
  (P ∧ r = branch .sat) ∨ (¬ P ∧ r = branch .unsat)

lemma checkOutcome_of_sat {P : Prop} (branch : Z3Status → VerificationResult)
    (r : VerificationResult) (hP : P) :
    checkOutcome P branch r ↔ r = branch .sat := by
  constructor
  · rintro (⟨_, h⟩ | ⟨hn, _⟩)
    · exact h
    · exact absurd hP hn
  · intro h
    exact Or.inl ⟨hP, h⟩

lemma checkOutcome_of_unsat {P : Prop} (branch : Z3Status → VerificationResult)
    (r : VerificationResult) (hP : ¬ P) :
    checkOutcome P branch r ↔ r = branch .unsat := by
  constructor
  · rintro (⟨h, _⟩ | ⟨_, h⟩)
    · exact absurd h hP
    · exact h
  · intro h
    exact Or.inr ⟨hP, h⟩

/- ----------------------------------------------------------------
   PropertyChecker.verify_erc20_conservation
   (src/verifier/property_checker.py, lines 36-115)
   ---------------------------------------------------------------- -/

/-- Post-solve branch of `verify_erc20_conservation`:
`sat → VIOLATED`, `unsat → VERIFIED`, otherwise `UNKNOWN`. -/
def erc20_branch : Z3Status → VerificationResult
  | .sat => .VIOLATED
  | .unsat => .VERIFIED
  | .unknown => .UNKNOWN

/-- The Z3 variables created by `verify_erc20_conservation`:
`total_supply`, `balance_i` (i ≤ num_operations) and `transfer_i`
(i < num_operations), embedded as functions on indices. -/
structure Erc20Model where
  total_supply : ℤ
  balance : ℕ → ℤ
  transfer : ℕ → ℤ

/-- The python list `running_balances`: `running_balances[0] = balances[0]`
and `running_balances[i+1] = running_balances[i] - transfer_amounts[i]`. -/
def runningBalance (b0 : ℤ) (t : ℕ → ℤ) : ℕ → ℤ
  | 0 => b0
  | i + 1 => runningBalance b0 t i - t i

/-- `balance_sum = sum(running_balances)` — note this sums the source
account's balance history, with `num_operations + 1` summands. -/
def erc20BalanceSum (n : ℕ) (b0 : ℤ) (t : ℕ → ℤ) : ℤ :=
  (Finset.range (n + 1)).sum (fun k => runningBalance b0 t k)

/-- The constraints `verify_erc20_conservation(initial_supply, num_operations)`
adds to the solver, in source order, including the negated property
`balance_sum != total_supply`. -/
def erc20Constraints (initial_supply : ℤ) (num_operations : ℕ)
    (m : Erc20Model) : Prop :=
  m.total_supply = initial_supply ∧
  m.total_supply > 0 ∧
  (∀ i, i ≤ num_operations → m.balance i ≥ 0) ∧
  m.balance 0 = m.total_supply ∧
  (∀ i, 1 ≤ i → i ≤ num_operations → m.balance i = 0) ∧
  (∀ i, i < num_operations →
    m.transfer i > 0 ∧
    runningBalance (m.balance 0) m.transfer i ≥ m.transfer i ∧
    m.balance (i + 1) + m.transfer i ≥ 0) ∧
  erc20BalanceSum num_operations (m.balance 0) m.transfer ≠ m.total_supply

/-- Unlike the other checkers, `verify_erc20_conservation` never calls
`reset()`, so its query is conjoined with whatever constraints the
shared solver already holds; `prior` is that accumulated prior
constraint set (over the same global Z3 variable names). -/
def erc20SatFrom (prior : Erc20Model → Prop) (initial_supply : ℤ)
    (num_operations : ℕ) : Prop :=
  ∃ m, prior m ∧ erc20Constraints initial_supply num_operations m

/-- The empty prior constraint set: a fresh (or freshly reset) session. -/
def noPrior : Erc20Model → Prop := fun _ => True

/-- A non-empty prior constraint set, as left behind by e.g. a previous
`solver.add(total_supply == 5)` on the same un-reset session. -/
def priorSupply5 : Erc20Model → Prop := fun m => m.total_supply = 5

/-- Result of `verify_erc20_conservation(initial_supply, num_operations)`
on a session whose solver already holds `prior`. -/
def verify_erc20_conservation (prior : Erc20Model → Prop)
    (initial_supply : ℤ) (num_operations : ℕ) (r : VerificationResult) : Prop :=
  checkOutcome (erc20SatFrom prior initial_supply num_operations) erc20_branch r

/-- Concrete satisfying model for the ERC-20 query at
`initial_supply = 2`, `num_operations = 1`: transfer 1 of 2 tokens;
the summed running balances are `2 + 1 = 3 ≠ 2`. -/
def erc20Cex : Erc20Model :=
  { total_supply := 2
    balance := fun i => if i = 0 then 2 else 0
    transfer := fun _ => 1 }

lemma erc20Cex_sat : erc20Constraints 2 1 erc20Cex := by
  refine ⟨rfl, by norm_num [erc20Cex], ?_, by simp [erc20Cex], ?_, ?_, ?_⟩
  · intro i _
    by_cases h : i = 0 <;> simp [erc20Cex, h]
  · intro i h1 h2
    have : i = 1 := le_antisymm h2 h1
    simp [erc20Cex, this]
  · intro i hi
    have : i = 0 := Nat.lt_one_iff.mp hi
    subst this
    refine ⟨by norm_num [erc20Cex], ?_, by norm_num [erc20Cex]⟩
    simp [erc20Cex, runningBalance]
  · have h1 : runningBalance (erc20Cex.balance 0) erc20Cex.transfer 0 = 2 := by
      simp [erc20Cex, runningBalance]
    have h2 : runningBalance (erc20Cex.balance 0) erc20Cex.transfer 1 = 1 := by
      simp [erc20Cex, runningBalance]
    simp only [erc20BalanceSum, erc20Cex, Finset.sum_range_succ,
      Finset.sum_range_one] at *
    simp [runningBalance]

lemma erc20_sat_noPrior_2_1 : erc20SatFrom noPrior 2 1 :=
  ⟨erc20Cex, trivial, erc20Cex_sat⟩

/-- Claim C1 (code bug evaluation): on a fresh session with
`initial_supply = 2` and `num_operations = 1`, the conservation query is
satisfiable — the summed running source balances can differ from the
total supply — so `verify_erc20_conservation` returns `VIOLATED`,
not `VERIFIED` as the spec states. -/
theorem erc20_conservation_violated_at_2_1 :
    ∀ r, verify_erc20_conservation noPrior 2 1 r ↔ r = VerificationResult.VIOLATED := by
  intro r
  have h := checkOutcome_of_sat erc20_branch r erc20_sat_noPrior_2_1
  simpa [verify_erc20_conservation, erc20_branch] using h

/-- Claim C8: `verify_erc20_conservation` adds its constraints to
whatever the solver already holds.  With the non-empty prior constraint
`total_supply == 5` on the same instance, the call with
`initial_supply = 2`, `num_operations = 1` becomes unsatisfiable and
returns `VERIFIED`, while the same call on a fresh session returns
`VIOLATED`: the outcomes differ. -/
theorem erc20_prior_constraints_change_outcome :
    (∀ r, verify_erc20_conservation priorSupply5 2 1 r ↔ r = VerificationResult.VERIFIED) ∧
    (∀ r, verify_erc20_conservation noPrior 2 1 r ↔ r = VerificationResult.VIOLATED) ∧
    VerificationResult.VERIFIED ≠ VerificationResult.VIOLATED := by
  refine ⟨?_, ?_, by decide⟩
  · intro r
    have hunsat : ¬ erc20SatFrom priorSupply5 2 1 := by
      rintro ⟨m, hprior, hts, -⟩
      rw [priorSupply5] at hprior
      omega
    have h := checkOutcome_of_unsat erc20_branch r hunsat
    simpa [verify_erc20_conservation, erc20_branch] using h
  · intro r
    have h := checkOutcome_of_sat erc20_branch r erc20_sat_noPrior_2_1
    simpa [verify_erc20_conservation, erc20_branch] using h

/- ----------------------------------------------------------------
   PropertyChecker.verify_bridge_conservation
   (src/verifier/property_checker.py, lines 118-190)
   ---------------------------------------------------------------- -/

/-- Post-solve branch of `verify_bridge_conservation`. -/
def bridge_branch : Z3Status → VerificationResult
  | .sat => .VIOLATED
  | .unsat => .VERIFIED
  | .unknown => .UNKNOWN

/-- The Z3 variables of `verify_bridge_conservation`. -/
structure BridgeModel where
  locked_A : ℤ
  minted_B : ℤ
  nonce : ℤ
  processed : Bool
  amount1 : ℤ
  locked_A_after_lock : ℤ
  amount2 : ℤ
  minted_B_after_mint : ℤ

/-- The constraints added by `verify_bridge_conservation(initial_amount)`
(the method resets the session first), including the negated property
`locked_A_after_lock != minted_B_after_mint`.  Note the initial state is
only constrained non-negative (`locked_A >= 0`, `minted_B >= 0`), not
zero. -/
def bridgeConstraints (initial_amount : ℤ) (m : BridgeModel) : Prop :=
  m.locked_A ≥ 0 ∧
  m.minted_B ≥ 0 ∧
  m.nonce = 0 ∧
  m.processed = false ∧
  m.amount1 = initial_amount ∧
  m.amount1 > 0 ∧
  m.locked_A_after_lock = m.locked_A + m.amount1 ∧
  m.amount2 = m.amount1 ∧
  m.minted_B_after_mint = m.minted_B + m.amount2 ∧
  m.locked_A_after_lock ≠ m.minted_B_after_mint

def bridgeSat (initial_amount : ℤ) : Prop :=
  ∃ m, bridgeConstraints initial_amount m

/-- Result of `verify_bridge_conservation(initial_amount)`. -/
def verify_bridge_conservation (initial_amount : ℤ) (r : VerificationResult) : Prop :=
  checkOutcome (bridgeSat initial_amount) bridge_branch r

/-- A satisfying model for the bridge query at `initial_amount = 1`:
start with one token already locked and none minted. -/
def bridgeCex : BridgeModel :=
  { locked_A := 1, minted_B := 0, nonce := 0, processed := false
    amount1 := 1, locked_A_after_lock := 2, amount2 := 1, minted_B_after_mint := 1 }

/-- Claim C2 (code bug evaluation): at `initial_amount = 1` the bridge
conservation query is satisfiable (the initial `locked_A`, `minted_B`
are merely non-negative, so they can already differ), hence
`verify_bridge_conservation` returns `VIOLATED`, not `VERIFIED` as the
spec states. -/
theorem bridge_conservation_violated_at_1 :
    ∀ r, verify_bridge_conservation 1 r ↔ r = VerificationResult.VIOLATED := by
  intro r
  have hsat : bridgeSat 1 := by
    refine ⟨bridgeCex, ?_⟩
    refine ⟨by norm_num [bridgeCex], by norm_num [bridgeCex], rfl, rfl, rfl,
      by norm_num [bridgeCex], by norm_num [bridgeCex], rfl,
      by norm_num [bridgeCex], by norm_num [bridgeCex]⟩
  have h := checkOutcome_of_sat bridge_branch r hsat
  simpa [verify_bridge_conservation, bridge_branch] using h

/- ----------------------------------------------------------------
   PropertyChecker.verify_buggy_bridge
   (src/verifier/property_checker.py, lines 251-311)
   ---------------------------------------------------------------- -/

/-- Post-solve branch of `verify_buggy_bridge`: `if result == sat`
return `VIOLATED`, `else` return `VERIFIED` — there is no branch for
`unknown`, which therefore also yields `VERIFIED`. -/
def buggy_bridge_branch : Z3Status → VerificationResult
  | .sat => .VIOLATED
  | .unsat => .VERIFIED
  | .unknown => .VERIFIED

/-- The Z3 variables of `verify_buggy_bridge` (amount is the literal 1000). -/
structure BuggyBridgeModel where
  locked_A : ℤ
  minted_B : ℤ
  locked_A_1 : ℤ
  minted_B_1 : ℤ
  minted_B_2 : ℤ

/-- The constraints added by `verify_buggy_bridge()` (after a reset):
zero initial state, lock 1000, mint 1000, replay-mint another 1000,
and the negated invariant `locked_A_1 != minted_B_2`. -/
def buggyBridgeConstraints (m : BuggyBridgeModel) : Prop :=
  m.locked_A = 0 ∧
  m.minted_B = 0 ∧
  m.locked_A_1 = m.locked_A + 1000 ∧
  m.minted_B_1 = m.minted_B + 1000 ∧
  m.minted_B_2 = m.minted_B_1 + 1000 ∧
  m.locked_A_1 ≠ m.minted_B_2

def buggyBridgeSat : Prop := ∃ m, buggyBridgeConstraints m

/-- Result of `verify_buggy_bridge()`. -/
def verify_buggy_bridge (r : VerificationResult) : Prop :=
  checkOutcome buggyBridgeSat buggy_bridge_branch r

/-- The (unique) satisfying model of the double-mint query. -/
def buggyBridgeCex : BuggyBridgeModel :=
  { locked_A := 0, minted_B := 0, locked_A_1 := 1000
    minted_B_1 := 1000, minted_B_2 := 2000 }

lemma buggyBridgeCex_sat : buggyBridgeConstraints buggyBridgeCex := by
  refine ⟨rfl, rfl, by norm_num [buggyBridgeCex], by norm_num [buggyBridgeCex],
    by norm_num [buggyBridgeCex], by norm_num [buggyBridgeCex]⟩

/-- Claim C3 (code bug evaluation): the post-solve branch of
`verify_buggy_bridge` maps the `unknown` solver answer to `VERIFIED`
(its `else` branch), not to `UNKNOWN`; the branch of
`verify_erc20_conservation`, by contrast, maps `unknown` to `UNKNOWN`. -/
theorem buggy_bridge_unknown_maps_to_verified :
    buggy_bridge_branch Z3Status.unknown = VerificationResult.VERIFIED ∧
    buggy_bridge_branch Z3Status.unknown ≠ VerificationResult.UNKNOWN ∧
    erc20_branch Z3Status.unknown = VerificationResult.UNKNOWN := by
  refine ⟨rfl, by decide, rfl⟩

/-- Claim C4: `verify_buggy_bridge` always returns `VIOLATED` (the
double-mint query is satisfiable), and in every satisfying model the
derived attacker profit `minted_B_2 - locked_A_1` equals exactly the
replayed amount 1000. -/
theorem buggy_bridge_always_violated_profit_1000 :
    (∀ r, verify_buggy_bridge r ↔ r = VerificationResult.VIOLATED) ∧
    (∀ m, buggyBridgeConstraints m → m.minted_B_2 - m.locked_A_1 = 1000) := by
  constructor
  · intro r
    have hsat : buggyBridgeSat := ⟨buggyBridgeCex, buggyBridgeCex_sat⟩
    have h := checkOutcome_of_sat buggy_bridge_branch r hsat
    simpa [verify_buggy_bridge, buggy_bridge_branch] using h
  · rintro m ⟨h1, h2, h3, h4, h5, -⟩
    omega

/-- Witness for C4: the theorem applied at the concrete double-mint
model, discharging its hypothesis there. -/
theorem buggy_bridge_profit_witness :
    buggyBridgeCex.minted_B_2 - buggyBridgeCex.locked_A_1 = 1000 :=
  buggy_bridge_always_violated_profit_1000.2 buggyBridgeCex buggyBridgeCex_sat

/- ----------------------------------------------------------------
   PropertyChecker.verify_no_overflow
   (src/verifier/property_checker.py, lines 193-248)
   ---------------------------------------------------------------- -/

/-- Post-solve branch of `verify_no_overflow`. -/
def overflow_branch : Z3Status → VerificationResult
  | .sat => .VIOLATED
  | .unsat => .VERIFIED
  | .unknown => .UNKNOWN

/-- The Z3 variables of `verify_no_overflow`. -/
structure OverflowModel where
  balance1 : ℤ
  balance2 : ℤ
  transfer_amount : ℤ

/-- The constraints added by `verify_no_overflow(max_value)` (after a
reset), with the overflow search `balance2 + transfer_amount > max_value`. -/
def overflowConstraints (max_value : ℤ) (m : OverflowModel) : Prop :=
  m.balance1 ≥ 0 ∧
  m.balance2 ≥ 0 ∧
  m.transfer_amount > 0 ∧
  m.balance1 ≥ m.transfer_amount ∧
  m.balance2 + m.transfer_amount > max_value

def overflowSat (max_value : ℤ) : Prop := ∃ m, overflowConstraints max_value m

/-- Result of `verify_no_overflow(max_value)`. -/
def verify_no_overflow (max_value : ℤ) (r : VerificationResult) : Prop :=
  checkOutcome (overflowSat max_value) overflow_branch r

/-- Claim C7: for every `max_value ≥ 1` (in particular the tested
bit-width bounds), `verify_no_overflow` returns `VIOLATED`: balances are
only constrained non-negative with no upper bound, so the model with
`balance1 = transfer_amount = max_value + 1`, `balance2 = 0` satisfies
the overflow query. -/
theorem no_overflow_always_violated (max_value : ℤ) (hmax : 1 ≤ max_value) :
    ∀ r, verify_no_overflow max_value r ↔ r = VerificationResult.VIOLATED := by
  intro r
  have hsat : overflowSat max_value := by
    refine ⟨⟨max_value + 1, 0, max_value + 1⟩, ?_, ?_, ?_, ?_, ?_⟩ <;>
      dsimp only <;> omega
  have h := checkOutcome_of_sat overflow_branch r hsat
  simpa [verify_no_overflow, overflow_branch] using h

/-- Witness for C7 at the 8-bit bound `2^8 - 1 = 255`. -/
theorem no_overflow_violated_at_255 :
    verify_no_overflow 255 VerificationResult.VIOLATED :=
  (no_overflow_always_violated 255 (by norm_num) VerificationResult.VIOLATED).mpr rfl

/- ----------------------------------------------------------------
   AdvancedPropertyChecker.verify_timelock_constraints
   (src/verifier/advanced_properties.py, lines 198-261)
   ---------------------------------------------------------------- -/

/-- Post-solve branch of `verify_timelock_constraints`. -/
def timelock_branch : Z3Status → VerificationResult
  | .sat => .VIOLATED
  | .unsat => .VERIFIED
  | .unknown => .UNKNOWN

/-- The Z3 variables of `verify_timelock_constraints`. -/
structure TimelockModel where
  lock_time : ℤ
  current_time : ℤ
  unlock_time : ℤ
  locked_amount : ℤ
  withdrawable : Bool

/-- The constraints added by `verify_timelock_constraints(lock_period)`
(after a reset): the bidirectional definition
`withdrawable == (current_time >= unlock_time)` plus the attempted early
withdrawal `current_time < unlock_time` and `withdrawable == True`. -/
def timelockConstraints (lock_period : ℤ) (m : TimelockModel) : Prop :=
  m.locked_amount > 0 ∧
  m.lock_time ≥ 0 ∧
  m.unlock_time = m.lock_time + lock_period ∧
  m.current_time ≥ m.lock_time ∧
  (m.withdrawable = true ↔ m.current_time ≥ m.unlock_time) ∧
  m.current_time < m.unlock_time ∧
  m.withdrawable = true

def timelockSat (lock_period : ℤ) : Prop := ∃ m, timelockConstraints lock_period m

/-- Result of `verify_timelock_constraints(lock_period)`. -/
def verify_timelock_constraints (lock_period : ℤ) (r : VerificationResult) : Prop :=
  checkOutcome (timelockSat lock_period) timelock_branch r

/-- Claim C6: for every `lock_period`, `verify_timelock_constraints`
returns `VERIFIED`: `withdrawable == true` forces
`current_time >= unlock_time` through the bidirectional definition,
contradicting `current_time < unlock_time`, so the query is
unsatisfiable. -/
theorem timelock_always_verified :
    ∀ (lock_period : ℤ) (r : VerificationResult),
      verify_timelock_constraints lock_period r ↔ r = VerificationResult.VERIFIED := by
  intro lock_period r
  have hunsat : ¬ timelockSat lock_period := by
    rintro ⟨m, -, -, -, -, hdef, hlt, htrue⟩
    have := hdef.mp htrue
    omega
  have h := checkOutcome_of_unsat timelock_branch r hunsat
  simpa [verify_timelock_constraints, timelock_branch] using h

/- ----------------------------------------------------------------
   AdvancedPropertyChecker.verify_liquidity_pool_with_fees
   (src/verifier/advanced_properties.py, lines 120-195)
   ---------------------------------------------------------------- -/

/-- Post-solve branch of `verify_liquidity_pool_with_fees`. -/
def pool_branch : Z3Status → VerificationResult
  | .sat => .VIOLATED
  | .unsat => .VERIFIED
  | .unknown => .UNKNOWN

/-- The Z3 variables of `verify_liquidity_pool_with_fees`. -/
structure PoolModel where
  pool_before : ℤ
  pool_after : ℤ
  fees_collected : ℤ
  amount_in : ℤ
  amount_out : ℤ
  fee : ℤ

/-- The constraints added by
`verify_liquidity_pool_with_fees(pool_balance, fee_bps)` (after a
reset), with the exact-rational fee equation
`fee * 10000 == amount_in * fee_bps` and the negated conservation
property `pool_after != pool_before + fee`. -/
def poolConstraints (pool_balance fee_bps : ℤ) (m : PoolModel) : Prop :=
  m.pool_before = pool_balance ∧
  m.pool_before > 0 ∧
  m.fees_collected = 0 ∧
  m.amount_in > 0 ∧
  m.amount_in ≤ m.pool_before ∧
  m.fee * 10000 = m.amount_in * fee_bps ∧
  m.fee ≥ 0 ∧
  m.amount_out = m.amount_in - m.fee ∧
  m.pool_after = m.pool_before + m.amount_in - m.amount_out ∧
  m.pool_after ≠ m.pool_before + m.fee

def poolSat (pool_balance fee_bps : ℤ) : Prop :=
  ∃ m, poolConstraints pool_balance fee_bps m

/-- Result of `verify_liquidity_pool_with_fees(pool_balance, fee_bps)`. -/
def verify_liquidity_pool_with_fees (pool_balance fee_bps : ℤ)
    (r : VerificationResult) : Prop :=
  checkOutcome (poolSat pool_balance fee_bps) pool_branch r

/-- Claim C10: `verify_liquidity_pool_with_fees` returns `VERIFIED` for
every integer `pool_balance` and `fee_bps`: the constraints
`amount_out == amount_in - fee` and
`pool_after == pool_before + amount_in - amount_out` force
`pool_after == pool_before + fee`, contradicting the negated property —
including parameter values under which the premise constraints are
themselves contradictory and the verdict is vacuous. -/
theorem pool_with_fees_always_verified :
    ∀ (pool_balance fee_bps : ℤ) (r : VerificationResult),
      verify_liquidity_pool_with_fees pool_balance fee_bps r ↔
        r = VerificationResult.VERIFIED := by
  intro pool_balance fee_bps r
  have hunsat : ¬ poolSat pool_balance fee_bps := by
    rintro ⟨m, -, -, -, -, -, -, -, hout, hafter, hne⟩
    omega
  have h := checkOutcome_of_unsat pool_branch r hunsat
  simpa [verify_liquidity_pool_with_fees, pool_branch] using h

/- ----------------------------------------------------------------
   VerificationConditionGenerator.generate_vc_bridge_invariant
   (src/verifier/hoare_logic.py, lines 202-294)
   ---------------------------------------------------------------- -/

/-- The Z3 variables of `generate_vc_bridge_invariant`. -/
structure BridgeVCModel where
  locked : ℤ
  minted : ℤ
  locked_prime : ℤ
  minted_prime : ℤ
  amount : ℤ

/-- Proof obligation 1 (base case) of `generate_vc_bridge_invariant`:
`locked == 0`, `minted == 0`, `Not(locked == minted)`. -/
def bridgeVCBase (m : BridgeVCModel) : Prop :=
  m.locked = 0 ∧ m.minted = 0 ∧ ¬ (m.locked = m.minted)

/-- Proof obligation 2 (inductive step, unpaired lock) of
`generate_vc_bridge_invariant`: assume the invariant, lock alone,
negate the primed invariant. -/
def bridgeVCLock (m : BridgeVCModel) : Prop :=
  m.locked = m.minted ∧
  m.amount > 0 ∧
  m.locked_prime = m.locked + m.amount ∧
  m.minted_prime = m.minted ∧
  ¬ (m.locked_prime = m.minted_prime)

/-- Proof obligation 3 (inductive step, paired lock + mint) of
`generate_vc_bridge_invariant`. -/
def bridgeVCPaired (m : BridgeVCModel) : Prop :=
  m.locked = m.minted ∧
  m.amount > 0 ∧
  m.locked_prime = m.locked + m.amount ∧
  m.minted_prime = m.minted + m.amount ∧
  ¬ (m.locked_prime = m.minted_prime)

/-- Claim C5: in `generate_vc_bridge_invariant` the three proof
obligations resolve exactly as: the base case is unsatisfiable, the
unpaired-lock inductive step is satisfiable with a model in which
`locked_prime` differs from `minted_prime`, and the paired lock+mint
inductive step is unsatisfiable. -/
theorem bridge_invariant_vc_resolutions :
    (¬ ∃ m, bridgeVCBase m) ∧
    (∃ m, bridgeVCLock m ∧ m.locked_prime ≠ m.minted_prime) ∧
    (¬ ∃ m, bridgeVCPaired m) := by
  refine ⟨?_, ?_, ?_⟩
  · rintro ⟨m, h1, h2, h3⟩
    omega
  · refine ⟨⟨0, 0, 1, 0, 1⟩, ⟨?_, ?_, ?_, ?_, ?_⟩, ?_⟩ <;> dsimp only <;> omega
  · rintro ⟨m, h1, h2, h3, h4, h5⟩
    omega

/- ----------------------------------------------------------------
   WeakestPreconditionCalculator.calculate_wp / verify_hoare_triple
   (src/verifier/hoare_logic.py, lines 86-118)
   ---------------------------------------------------------------- -/

/-- `calculate_wp(command, postcondition)` from the source: the
dispatcher is "for now, simplified" and returns the postcondition for
every command.  Formulas are embedded as predicates over a state type,
commands as the strings the `HoareTriple` dataclass carries. -/
def calculate_wp {σ : Type} (command : String) (postcondition : σ → Prop) :
    σ → Prop :=
  postcondition

/-- `verify_hoare_triple(precondition, command, postcondition)` from the
source: reset the solver, add `precondition` and `Not(wp)` where
`wp = calculate_wp(command, postcondition)`, and return `True` exactly
when the query is unsatisfiable. -/
def verify_hoare_triple {σ : Type} (precondition : σ → Prop) (command : String)
    (postcondition : σ → Prop) (valid : Bool) : Prop :=
  ((∃ s, precondition s ∧ ¬ calculate_wp command postcondition s) ∧ valid = false) ∨
  ((¬ ∃ s, precondition s ∧ ¬ calculate_wp command postcondition s) ∧ valid = true)

/-- Claim C9: `calculate_wp` returns its postcondition unchanged for
every command, so `verify_hoare_triple P C Q` ignores the command
entirely: it reports the triple valid exactly when the plain
implication `P ⇒ Q` holds on every state, i.e. it decides `P ⇒ Q`
rather than `P ⇒ WP(C, Q)`, for every command `C`. -/
theorem hoare_triple_ignores_command :
    ∀ (σ : Type) (P Q : σ → Prop) (C : String) (valid : Bool),
      calculate_wp C Q = Q ∧
      (verify_hoare_triple P C Q valid ↔
        ((∀ s, P s → Q s) ∧ valid = true) ∨
        ((¬ ∀ s, P s → Q s) ∧ valid = false)) := by
  intro σ P Q C valid
  refine ⟨rfl, ?_⟩
  have key : (¬ ∃ s, P s ∧ ¬ Q s) ↔ (∀ s, P s → Q s) := by
    constructor
    · intro h s hp
      by_contra hq
      exact h ⟨s, hp, hq⟩
    · rintro h ⟨s, hp, hq⟩
      exact hq (h s hp)
  have key2 : (∃ s, P s ∧ ¬ Q s) ↔ ¬ (∀ s, P s → Q s) := by
    rw [← key, not_not]
  rw [verify_hoare_triple, calculate_wp, key, key2]
  tauto

end FinVerify
